import Mathlib

/-!
Shallow embedding of mapproxy/cache/s3.py: the S3-backed tile cache backend.

The backend composes a deterministic key locator with a remote blob store.
Remote answers are modelled by oracles (functions from keys to responses), so
each operation is a pure function of the tile, the cache configuration and the
remote's answer.  The well-behaved remote derived from a bucket's contents
(a partial map from keys to byte strings) instantiates those oracles for the
functional claims.

Collaborators of s3.py that live elsewhere in the repository
(mapproxy.cache.file.FileCache, mapproxy.cache.base.tile_buffer,
mapproxy.cache.tile.Tile, mapproxy.util.py.reraise_exception) are modelled
from the spec; each such definition carries a doc comment saying so.
-/

set_option autoImplicit false

namespace Mapproxy

/-- Raw image bytes (the body of a stored object). -/
abbrev Bytes := List Nat

/-- mapproxy.image.ImageSource: a wrapper around a byte buffer that
`load_tile` assigns to `tile.source` after a successful fetch. -/
structure ImageSource where
  buf : Bytes
deriving DecidableEq, Repr

/-- A map tile as seen by this backend: a coordinate triple (x, y, z), a
mutable source slot holding an image once loaded, a stored flag set after a
successful store, and the placeholder metadata fields (timestamp, size). -/
structure Tile where
  coord : Option (Int × Int × Int)
  source : Option ImageSource
  stored : Bool
  timestamp : Nat
  size : Nat
deriving DecidableEq, Repr

/-- Modelled from the spec: `Tile.is_missing` from the tile collaborator
(mapproxy.cache.tile, not under src/).  A tile carrying a materialized source
is present, hence not missing; a tile with a coordinate and no source is
missing; a tile with no coordinate is structurally empty and short-circuits
the operations without a remote call, so the fetch path does not treat it as
missing either. -/
def Tile.is_missing (t : Tile) : Bool :=
  t.source.isNone && t.coord.isSome

/-- The configuration state a constructed S3Cache instance holds: the resolved
bucket name plus the fields the base initialization records (cache directory,
file extension, directory layout).  Lock handling is consumed entirely by the
excluded file-cache base collaborator and carries no behavior here. -/
structure S3Cache where
  bucket_name : String
  cache_dir : String
  file_ext : String
  directory_layout : String
deriving DecidableEq, Repr

/-- Modelled from the spec: the key locator owned by the file-cache
collaborator (FileCache.tile_location via the directory-layout formatter, not
under src/).  The spec requires only a pure, deterministic, injective-enough
mapping from (coordinate, layout scheme, extension) to a key string; we fix
one concrete TMS-style shape.  Nothing below depends on the exact format,
only on its determinism. -/
def locate (layout ext : String) : Int × Int × Int → String
  | (x, y, z) =>
    layout ++ "/" ++ toString z ++ "/" ++ toString x ++ "/" ++ toString y ++ "." ++ ext

/-- FileCache.tile_location applied to a tile: the storage key derived from
the tile's coordinate under the instance's layout scheme and extension.
(The operations below only reach this with a present coordinate; the
no-coordinate default exists to keep the function total.) -/
def S3Cache.tile_location (c : S3Cache) (t : Tile) : String :=
  match t.coord with
  | some xyz => locate c.directory_layout c.file_ext xyz
  | none => locate c.directory_layout c.file_ext (0, 0, 0)

/-- Outcome of a remote GET (boto Key.get_contents_to_file): either the
object's bytes, or an S3 error response carrying an error code (NoSuchKey for
a miss, AccessDenied for a permission failure, ...), raised by the client as
an S3ResponseError. -/
inductive GetResult where
  | ok (data : Bytes)
  | s3error (errorCode : String)
deriving DecidableEq, Repr

/-- Outcome of a remote PUT (boto Key.set_contents_from_file): success, or an
S3 error response raised by the client as an S3ResponseError. -/
inductive PutResult where
  | ok
  | s3error (errorCode : String)
deriving DecidableEq, Repr

/-- What one call to store_tile uploaded: the derived key, the content-type
hint set on the boto key (none when left unset), and the object body. -/
structure PutRecord where
  key : String
  content_type : Option String
  data : Bytes
deriving DecidableEq, Repr

/-- Result of store_tile: a normal return carrying the (possibly updated)
tile and the upload performed (none when the call was a no-op), or a
propagated exception carrying the S3 error code and the tile as the caller
still sees it. -/
inductive StoreOutcome where
  | ret (t : Tile) (put : Option PutRecord)
  | raise (errorCode : String) (t : Tile)
deriving DecidableEq, Repr

/-- S3Cache.is_cached: if the tile is missing, derive the key and ask the
remote whether the object exists (`existsAt` is the remote's answer per key);
otherwise return true with no remote call. -/
def S3Cache.is_cached (c : S3Cache) (existsAt : String → Bool) (t : Tile) : Bool :=
  if t.is_missing then existsAt (c.tile_location t) else true

/-- S3Cache.load_tile: return true at once when the tile is not missing.
Otherwise derive the key and fetch the object into a locally created buffer
(`getAt` is the remote's answer per key); on success wrap the buffer as the
tile's ImageSource and return true.  The source's `except
boto.exception.S3ResponseError: pass` swallows every S3 error response, not
only NoSuchKey, and falls through to `return False` with the tile untouched. -/
def S3Cache.load_tile (c : S3Cache) (getAt : String → GetResult) (t : Tile) :
    Bool × Tile :=
  if !t.is_missing then (true, t)
  else
    match getAt (c.tile_location t) with
    | .ok data => (true, { t with source := some { buf := data } })
    | .s3error _ => (false, t)

/-- Modelled from the spec: the scoped buffer accessor `tile_buffer` of the
cache base collaborator (mapproxy.cache.base, not under src/).  It acquires
the tile's image bytes, runs the enclosed upload, releases the buffer on
every exit path, and — per the store contract, "after a successful upload,
mark the tile as stored" — marks the tile stored exactly when the enclosed
upload completed without failure; a failed upload leaves the flag untouched
and the failure propagates.  A tile without a source has no buffer to
acquire, which surfaces as a local (non-remote) error. -/
def with_tile_buffer (t : Tile) (body : Bytes → PutResult) :
    Except (String × Tile) (Tile × Bytes) :=
  match t.source with
  | none => .error ("AttributeError", t)
  | some s =>
    match body s.buf with
    | .ok => .ok ({ t with stored := true }, s.buf)
    | .s3error e => .error (e, t)

/-- S3Cache.store_tile: no-op when the tile is already marked stored.
Otherwise derive the key, set the content-type hint when the configured
extension is jpeg or png, and upload the tile's bytes through the scoped
buffer (`putAt` is the remote's answer per key and body).  No handler
surrounds the upload, so a failed PUT propagates. -/
def S3Cache.store_tile (c : S3Cache) (putAt : String → Bytes → PutResult)
    (t : Tile) : StoreOutcome :=
  if t.stored then .ret t none
  else
    let location := c.tile_location t
    let ct : Option String :=
      if c.file_ext ∈ ["jpeg", "png"] then some ("image/" ++ c.file_ext) else none
    match with_tile_buffer t (fun buf => putAt location buf) with
    | .ok (t2, buf) => .ret t2 (some { key := location, content_type := ct, data := buf })
    | .error (e, t2) => .raise e t2

/-- The contents of the remote bucket: a partial map from keys to bodies. -/
def Bucket := String → Option Bytes

/-- The effect of a successful PUT on the bucket's contents. -/
def Bucket.put (b : Bucket) (key : String) (data : Bytes) : Bucket :=
  fun k => if k = key then some data else b k

/-- The effect of a DELETE on the bucket's contents. -/
def Bucket.deleteKey (b : Bucket) (key : String) : Bucket :=
  fun k => if k = key then none else b k

/-- The well-behaved remote GET oracle of a bucket: the stored bytes, or a
NoSuchKey error response for an absent key. -/
def Bucket.getResult (b : Bucket) (key : String) : GetResult :=
  match b key with
  | some d => .ok d
  | none => .s3error "NoSuchKey"

/-- The well-behaved remote existence oracle of a bucket (boto Key.exists). -/
def Bucket.existsAt (b : Bucket) (key : String) : Bool :=
  (b key).isSome

/-- S3Cache.remove_tile: derive the key; if the object exists, delete it,
otherwise do nothing.  Returns the bucket contents after the call. -/
def S3Cache.remove_tile (c : S3Cache) (b : Bucket) (t : Tile) : Bucket :=
  let location := c.tile_location t
  if (b location).isSome then b.deleteKey location else b

/-- store_tile run against a live, well-behaved bucket: every PUT is
accepted, and the upload the call performed is applied to the contents. -/
def S3Cache.store_tile_run (c : S3Cache) (t : Tile) (b : Bucket) : Tile × Bucket :=
  match c.store_tile (fun _ _ => PutResult.ok) t with
  | .ret t2 (some r) => (t2, b.put r.key r.data)
  | .ret t2 none => (t2, b)
  | .raise _ t2 => (t2, b)

/-- load_tile run against a live, well-behaved bucket. -/
def S3Cache.load_tile_run (c : S3Cache) (t : Tile) (b : Bucket) : Bool × Tile :=
  c.load_tile b.getResult t

/-- Outcome of boto.connect_s3 for a given credential profile: success, a
ProfileNotFoundError, or any other exception raised while connecting. -/
inductive ConnectResult where
  | ok
  | profileNotFound (msg : String)
  | otherFailure (msg : String)
deriving DecidableEq, Repr

/-- Outcome of conn.get_bucket for a given bucket name: success, or an S3
error response (boto.exception.S3ResponseError) carrying an error code
(NoSuchBucket, AccessDenied, ...) and a message. -/
inductive BucketResult where
  | ok
  | s3error (errorCode : String) (msg : String)
deriving DecidableEq, Repr

/-- An exception escaping construction: the ImportError raised when boto is
unavailable, or an S3ConnectionError carrying its message.  The source's
reraise_exception (a collaborator outside src/, modelled from the spec's
"UnknownConnectionFailure (wrapping the underlying cause)") raises the new
S3ConnectionError whose message embeds the underlying cause. -/
inductive InitException where
  | importError (msg : String)
  | s3ConnectionError (msg : String)
deriving DecidableEq, Repr

/-- The ambient environment construction runs in: whether the boto import
succeeded, and the remote's answers to connect_s3 (per profile) and
get_bucket (per bucket name). -/
structure Env where
  botoAvailable : Bool
  connectOutcome : Option String → ConnectResult
  getBucketOutcome : String → BucketResult

/-- The module-level connect helper: raise ImportError when the boto import
failed, then attempt boto.connect_s3 with the given profile, mapping
ProfileNotFoundError and any other exception to an S3ConnectionError.  In
the source profile_name defaults to None. -/
def connect (env : Env) (profile_name : Option String) : Except InitException Unit :=
  if !env.botoAvailable then
    .error (.importError "S3 Cache requires boto package.")
  else
    match env.connectOutcome profile_name with
    | .ok => .ok ()
    | .profileNotFound m => .error (.s3ConnectionError ("Profile no found " ++ m))
    | .otherFailure m => .error (.s3ConnectionError ("Error during connection " ++ m))

/-- S3Cache.__init__: call connect() — the source passes no argument, so the
supplied profile_name is not forwarded and the default (none) is always used
— then resolve the bucket, classifying an S3 error response by its error
code; only on success does the base initialization run and produce the
instance. -/
def S3Cache.mk_init (env : Env) (cache_dir file_ext directory_layout bucket_name : String)
    (profile_name : Option String) : Except InitException S3Cache :=
  match connect env none with
  | .error e => .error e
  | .ok () =>
    match env.getBucketOutcome bucket_name with
    | .s3error code msg =>
      if code = "NoSuchBucket" then
        .error (.s3ConnectionError ("No such bucket: " ++ bucket_name))
      else if code = "AccessDenied" then
        .error (.s3ConnectionError "Access denied. Check your credentials")
      else
        .error (.s3ConnectionError ("Unknown error: " ++ msg))
    | .ok =>
      .ok { bucket_name := bucket_name, cache_dir := cache_dir,
            file_ext := file_ext, directory_layout := directory_layout }

/-! Concrete fixtures used by the closed witness and counterexample
statements. -/

/-- A concrete cache configuration. -/
def cache0 : S3Cache :=
  { bucket_name := "maps", cache_dir := "cachedir", file_ext := "png",
    directory_layout := "tms" }

/-- A concrete missing tile: coordinate (3, 4, 2), no source. -/
def tMissing : Tile :=
  { coord := some (3, 4, 2), source := none, stored := false,
    timestamp := 0, size := 0 }

/-- A concrete unstored tile carrying image bytes at coordinate (3, 4, 2). -/
def tFull : Tile :=
  { coord := some (3, 4, 2), source := some { buf := [1, 2, 3] }, stored := false,
    timestamp := 0, size := 0 }

/-- The empty bucket. -/
def bEmpty : Bucket := fun _ => none

/-- An environment whose store rejects bucket resolution with NoSuchBucket. -/
def envNoBucket : Env :=
  { botoAvailable := true,
    connectOutcome := fun _ => .ok,
    getBucketOutcome := fun _ => .s3error "NoSuchBucket" "404 Not Found" }

/-- An environment in which the boto import failed. -/
def envNoBoto : Env :=
  { botoAvailable := false,
    connectOutcome := fun _ => .ok,
    getBucketOutcome := fun _ => .ok }

/-- An environment in which only the named profile myprofile has working
credentials: connecting with it succeeds, connecting with the ambient
default fails. -/
def envOnlyProfile : Env :=
  { botoAvailable := true,
    connectOutcome := fun p =>
      if p = some "myprofile" then .ok else .otherFailure "no default credentials",
    getBucketOutcome := fun _ => .ok }

/-!  Theorems settling the claims. -/

/-- C1: the claim says load returns false exactly on a NoSuchKey response and
that any other remote failure (for example permission denied) propagates.
The source's handler `except boto.exception.S3ResponseError: pass` swallows
every S3 error response: on an AccessDenied response, load returns false with
the tile unchanged instead of propagating a store-error. -/
theorem c1_load_permission_denied_returns_false :
    cache0.load_tile (fun _ => GetResult.s3error "AccessDenied") tMissing
      = (false, tMissing) := rfl

/-- C3: the claim says construction opens the connection with the supplied
credential profile.  The source calls connect() without forwarding
profile_name, so construction is independent of the supplied profile and, in
an environment where only the profile myprofile has working credentials,
constructing with that profile still fails through the default-credential
path. -/
theorem c3_profile_name_ignored :
    (∀ (env : Env) (cd fe dl bn : String) (p : Option String),
        S3Cache.mk_init env cd fe dl bn p = S3Cache.mk_init env cd fe dl bn none) ∧
    envOnlyProfile.connectOutcome (some "myprofile") = ConnectResult.ok ∧
    S3Cache.mk_init envOnlyProfile "cachedir" "png" "tms" "maps" (some "myprofile")
      = .error (.s3ConnectionError ("Error during connection " ++ "no default credentials")) :=
  ⟨fun _ _ _ _ _ _ => rfl, rfl, rfl⟩

/-- C5: a NoSuchBucket response fails construction with the
no-such-bucket connection error, an AccessDenied response with the
access-denied connection error, and any other S3 error response with the
unknown-error connection error wrapping the underlying message; in every
such case construction returns an error, never an instance. -/
theorem c5_construction_error_taxonomy
    (env : Env) (cd fe dl bn : String) (p : Option String) (msg : String)
    (hb : env.botoAvailable = true)
    (hc : env.connectOutcome none = ConnectResult.ok) :
    (env.getBucketOutcome bn = .s3error "NoSuchBucket" msg →
      S3Cache.mk_init env cd fe dl bn p
        = .error (.s3ConnectionError ("No such bucket: " ++ bn))) ∧
    (env.getBucketOutcome bn = .s3error "AccessDenied" msg →
      S3Cache.mk_init env cd fe dl bn p
        = .error (.s3ConnectionError "Access denied. Check your credentials")) ∧
    (∀ code, env.getBucketOutcome bn = .s3error code msg →
      code ≠ "NoSuchBucket" → code ≠ "AccessDenied" →
      S3Cache.mk_init env cd fe dl bn p
        = .error (.s3ConnectionError ("Unknown error: " ++ msg))) ∧
    (∀ code, env.getBucketOutcome bn = .s3error code msg →
      ∀ s : S3Cache, S3Cache.mk_init env cd fe dl bn p ≠ .ok s) := by
  have hconn : connect env none = .ok () := by simp [connect, hb, hc]
  refine ⟨?_, ?_, ?_, ?_⟩
  · intro h
    simp [S3Cache.mk_init, hconn, h]
  · intro h
    simp [S3Cache.mk_init, hconn, h]
  · intro code h h1 h2
    simp [S3Cache.mk_init, hconn, h, h1, h2]
  · intro code h s
    by_cases h1 : code = "NoSuchBucket"
    · simp [S3Cache.mk_init, hconn, h, h1]
    · by_cases h2 : code = "AccessDenied"
      · simp [S3Cache.mk_init, hconn, h, h1, h2]
      · simp [S3Cache.mk_init, hconn, h, h1, h2]

/-- C5 witness: against a store answering NoSuchBucket for every bucket,
construction with bucket maps fails with the no-such-bucket connection
error. -/
theorem c5_witness :
    envNoBucket.botoAvailable = true ∧
    envNoBucket.connectOutcome none = ConnectResult.ok ∧
    envNoBucket.getBucketOutcome "maps" = .s3error "NoSuchBucket" "404 Not Found" ∧
    S3Cache.mk_init envNoBucket "cachedir" "png" "tms" "maps" none
      = .error (.s3ConnectionError ("No such bucket: " ++ "maps")) :=
  ⟨rfl, rfl, rfl,
    (c5_construction_error_taxonomy envNoBucket "cachedir" "png" "tms" "maps" none
      "404 Not Found" rfl rfl).1 rfl⟩

/-- C10: when the boto import failed, construction raises the ImportError
from connect, for every combination of constructor arguments, and never a
connection-error. -/
theorem c10_boto_missing_raises_import_error
    (env : Env) (cd fe dl bn : String) (p : Option String)
    (h : env.botoAvailable = false) :
    S3Cache.mk_init env cd fe dl bn p
      = .error (.importError "S3 Cache requires boto package.") := by
  simp [S3Cache.mk_init, connect, h]

/-- C10 witness: in the environment whose boto import failed, construction
returns the ImportError. -/
theorem c10_witness :
    envNoBoto.botoAvailable = false ∧
    S3Cache.mk_init envNoBoto "cachedir" "png" "tms" "maps" none
      = .error (.importError "S3 Cache requires boto package.") :=
  ⟨rfl, c10_boto_missing_raises_import_error envNoBoto "cachedir" "png" "tms" "maps" none rfl⟩

/-- C2: for a tile not already marked stored and carrying image bytes, a
successful upload returns the tile with the stored flag set, and a failed
upload propagates the S3 error with the tile unchanged (its stored flag still
false). -/
theorem c2_store_marks_stored
    (c : S3Cache) (t : Tile) (s : ImageSource)
    (hst : t.stored = false) (hsrc : t.source = some s) :
    (∃ rec, c.store_tile (fun _ _ => PutResult.ok) t
        = .ret { t with stored := true } rec) ∧
    (∀ e, c.store_tile (fun _ _ => PutResult.s3error e) t = .raise e t) := by
  constructor
  · refine ⟨some ({ key := c.tile_location t,
                    content_type :=
                      if c.file_ext ∈ ["jpeg", "png"] then
                        some ("image/" ++ c.file_ext)
                      else none,
                    data := s.buf } : PutRecord), ?_⟩
    simp [S3Cache.store_tile, with_tile_buffer, hst, hsrc]
  · intro e
    simp [S3Cache.store_tile, with_tile_buffer, hst, hsrc]

/-- C2 witness: at the concrete unstored tile with bytes, store marks it
stored on success and raises with the tile unchanged on failure. -/
theorem c2_witness :
    tFull.stored = false ∧
    tFull.source = some { buf := [1, 2, 3] } ∧
    ((∃ rec, cache0.store_tile (fun _ _ => PutResult.ok) tFull
        = .ret { tFull with stored := true } rec) ∧
     (∀ e, cache0.store_tile (fun _ _ => PutResult.s3error e) tFull = .raise e tFull)) :=
  ⟨rfl, rfl, c2_store_marks_stored cache0 tFull { buf := [1, 2, 3] } rfl rfl⟩

/-- C4: storing an unstored tile with coordinate xyz and bytes data, then
loading a fresh sourceless tile with the same coordinate against the updated
bucket, returns true and sets the fresh tile's source to exactly those
bytes. -/
theorem c4_round_trip
    (c : S3Cache) (xyz : Int × Int × Int) (data : Bytes) (b : Bucket) (t t2 : Tile)
    (h1 : t.coord = some xyz) (h2 : t.source = some { buf := data })
    (h3 : t.stored = false) (h4 : t2.coord = some xyz) (h5 : t2.source = none) :
    c.load_tile_run t2 (c.store_tile_run t b).2
      = (true, { t2 with source := some { buf := data } }) := by
  have hloc : c.tile_location t = c.tile_location t2 := by
    simp [S3Cache.tile_location, h1, h4]
  simp [S3Cache.store_tile_run, S3Cache.store_tile, with_tile_buffer, h2, h3,
    S3Cache.load_tile_run, S3Cache.load_tile, Tile.is_missing, h4, h5,
    Bucket.put, Bucket.getResult, hloc]

/-- C4 witness: round trip at coordinate (3, 4, 2) with bytes [1, 2, 3]
starting from the empty bucket. -/
theorem c4_witness :
    cache0.load_tile_run tMissing (cache0.store_tile_run tFull bEmpty).2
      = (true, { tMissing with source := some { buf := [1, 2, 3] } }) :=
  c4_round_trip cache0 (3, 4, 2) [1, 2, 3] bEmpty tFull tMissing rfl rfl rfl rfl rfl

/-- C6: a tile carrying a materialized source is reported cached under every
remote existence oracle (hence without a remote call); a missing tile is
reported cached exactly when the bucket holds an object under its derived
key, and in particular a miss yields false. -/
theorem c6_is_cached_contract (c : S3Cache) (t : Tile) :
    (∀ s, t.source = some s → ∀ ex : String → Bool, c.is_cached ex t = true) ∧
    (t.source = none → t.coord.isSome = true → ∀ b : Bucket,
        c.is_cached b.existsAt t = (b (c.tile_location t)).isSome) ∧
    (t.source = none → t.coord.isSome = true → ∀ b : Bucket,
        b (c.tile_location t) = none → c.is_cached b.existsAt t = false) := by
  refine ⟨?_, ?_, ?_⟩
  · intro s hs ex
    simp [S3Cache.is_cached, Tile.is_missing, hs]
  · intro h1 h2 b
    simp [S3Cache.is_cached, Tile.is_missing, Bucket.existsAt, h1, h2]
  · intro h1 h2 b hb
    simp [S3Cache.is_cached, Tile.is_missing, Bucket.existsAt, h1, h2, hb]

/-- C6 witness: the populated tile is cached against the empty bucket without
consulting it; the missing tile against the empty bucket is a miss and yields
false. -/
theorem c6_witness :
    tFull.source = some { buf := [1, 2, 3] } ∧
    cache0.is_cached bEmpty.existsAt tFull = true ∧
    tMissing.source = none ∧
    tMissing.coord.isSome = true ∧
    cache0.is_cached bEmpty.existsAt tMissing = false :=
  ⟨rfl, (c6_is_cached_contract cache0 tFull).1 { buf := [1, 2, 3] } rfl bEmpty.existsAt,
   rfl, rfl, (c6_is_cached_contract cache0 tMissing).2.2 rfl rfl bEmpty rfl⟩

/-- C7: removing a tile whose key is absent leaves the bucket contents
unchanged, and removing twice has the same effect on the contents as
removing once. -/
theorem c7_remove_idempotent (c : S3Cache) (t : Tile) (b : Bucket) :
    (b (c.tile_location t) = none → c.remove_tile b t = b) ∧
    c.remove_tile (c.remove_tile b t) t = c.remove_tile b t := by
  constructor
  · intro h
    simp [S3Cache.remove_tile, h]
  · by_cases h : (b (c.tile_location t)).isSome = true
    · simp [S3Cache.remove_tile, h, Bucket.deleteKey]
    · simp [S3Cache.remove_tile, h]

/-- C7 witness: removing the missing tile from the empty bucket leaves it
unchanged, and removing twice equals removing once. -/
theorem c7_witness :
    bEmpty (cache0.tile_location tMissing) = none ∧
    cache0.remove_tile bEmpty tMissing = bEmpty ∧
    cache0.remove_tile (cache0.remove_tile bEmpty tMissing) tMissing
      = cache0.remove_tile bEmpty tMissing :=
  ⟨rfl, (c7_remove_idempotent cache0 tMissing bEmpty).1 rfl,
   (c7_remove_idempotent cache0 tMissing bEmpty).2⟩

/-- C8: the upload performed by store carries the content-type hint
image/<extension> exactly when the configured extension is jpeg or png, and
no content-type hint for any other extension. -/
theorem c8_content_type_hint (c : S3Cache) (t : Tile) (s : ImageSource)
    (hst : t.stored = false) (hsrc : t.source = some s) :
    ∃ rec, c.store_tile (fun _ _ => PutResult.ok) t
        = .ret { t with stored := true } (some rec) ∧
      ((c.file_ext = "jpeg" ∨ c.file_ext = "png") →
        rec.content_type = some ("image/" ++ c.file_ext)) ∧
      (c.file_ext ≠ "jpeg" → c.file_ext ≠ "png" → rec.content_type = none) := by
  refine ⟨{ key := c.tile_location t,
            content_type :=
              if c.file_ext ∈ ["jpeg", "png"] then some ("image/" ++ c.file_ext) else none,
            data := s.buf }, ?_, ?_, ?_⟩
  · simp [S3Cache.store_tile, with_tile_buffer, hst, hsrc]
  · rintro (h | h) <;> simp [h]
  · intro h1 h2
    simp [h1, h2]

/-- C8 witness: with the configured extension png, the performed upload
carries the hint image/png. -/
theorem c8_witness :
    tFull.stored = false ∧
    ∃ rec, cache0.store_tile (fun _ _ => PutResult.ok) tFull
        = .ret { tFull with stored := true } (some rec) ∧
      ((cache0.file_ext = "jpeg" ∨ cache0.file_ext = "png") →
        rec.content_type = some ("image/" ++ cache0.file_ext)) ∧
      (cache0.file_ext ≠ "jpeg" → cache0.file_ext ≠ "png" → rec.content_type = none) :=
  ⟨rfl, c8_content_type_hint cache0 tFull { buf := [1, 2, 3] } rfl rfl⟩

/-- C9: whenever load returns false, the tile it returns is the input tile
itself, every field included — the fetch buffer is local and is only wrapped
into the tile after a successful fetch. -/
theorem c9_load_false_leaves_tile_unchanged
    (c : S3Cache) (getAt : String → GetResult) (t t2 : Tile)
    (h : c.load_tile getAt t = (false, t2)) : t2 = t := by
  unfold S3Cache.load_tile at h
  cases hm : t.is_missing with
  | false =>
    rw [hm] at h
    simp at h
  | true =>
    rw [hm] at h
    cases hg : getAt (c.tile_location t) with
    | ok d =>
      rw [hg] at h
      simp at h
    | s3error e =>
      rw [hg] at h
      simp at h
      exact h.symm

/-- C9 witness: a miss on the concrete missing tile returns false and the
very same tile. -/
theorem c9_witness :
    cache0.load_tile (fun _ => GetResult.s3error "NoSuchKey") tMissing
      = (false, tMissing) ∧
    tMissing = tMissing :=
  ⟨rfl, c9_load_false_leaves_tile_unchanged cache0
    (fun _ => GetResult.s3error "NoSuchKey") tMissing tMissing rfl⟩

end Mapproxy
